import Mathlib

/-!
Verification of the `HomeActivity` component (src/src/model/homeactivity.py)
against its natural-language specification.

The Python class is embedded shallowly: the record's mutable fields become a
Lean structure, each method becomes a pure function from the record (plus the
external collaborators it consults) to a result, and the observable side
effects of a call — remote object lookups, bus signal subscriptions, remote
`SetActive` calls, log lines — are returned explicitly in an `Effects` value.
Python exceptions (`ValueError` from `set_window`, the `AttributeError` from
dereferencing an absent window) are modelled with `Except`.  External
collaborators (the session bus, the window manager, the presence service, the
profile store, the config module) are parameters: a `Bus` says which
well-known names currently resolve to a remote object, a `Wm` resolves a
window to its bundle id, and so on.
-/

namespace Sugar

/-- Module-level constant `_SERVICE_NAME` of homeactivity.py. -/
def SERVICE_NAME : String := "org.laptop.Activity"

/-- Module-level constant `_SERVICE_PATH` of homeactivity.py. -/
def SERVICE_PATH : String := "/org/laptop/Activity"

/-- Module-level constant `_SERVICE_INTERFACE` of homeactivity.py. -/
def SERVICE_INTERFACE : String := "org.laptop.Activity"

/-- A platform (Wnck) window handle: the queries `HomeActivity` makes of it.
X window ids are integers; `0` is the only falsy value. -/
structure Window where
  xid : Nat
  name : String
  pid : Nat
deriving DecidableEq, Repr

/-- `sugar.activity.registry.ActivityInfo`: the type-level metadata the
record borrows; only its `icon` field is read here. -/
structure ActivityInfo where
  icon : String
deriving DecidableEq, Repr

/-- A resolved dbus service handle: `bus.get_object` + `dbus.Interface`
record the bus name, object path and interface it was built from. -/
structure ServiceHandle where
  busName : String
  objectPath : String
  iface : String
deriving DecidableEq, Repr

/-- The session bus as `HomeActivity` observes it: which well-known names
currently resolve to a remote object (`bus.get_object` succeeds iff
`publishes name` — otherwise it raises `dbus.DBusException`). -/
structure Bus where
  publishes : String → Bool

/-- The window-manager collaborator `sugar.wm`: resolves a window to the
bundle id of the owning application. -/
structure Wm where
  get_bundle_id : Window → String

/-- The `config` module: only `data_path` is read. -/
structure Config where
  data_path : String
deriving DecidableEq, Repr

/-- `sugar.graphics.xocolor.XoColor`, built from a color string. -/
structure XoColor where
  value : String
deriving DecidableEq, Repr

/-- One entry of the presence service's activity list: the props
`HomeActivity` reads (`props.id`, `props.color`). -/
structure PsActivity where
  id : String
  color : String
deriving DecidableEq, Repr

/-- The presence service collaborator: `get_activities()` returns its
current activity list. -/
structure PresenceService where
  activities : List PsActivity
deriving DecidableEq, Repr

/-- The profile store collaborator: `profile.get_color()`. -/
structure Profile where
  color : XoColor
deriving DecidableEq, Repr

/-- The mutable fields of a `HomeActivity` instance, as set up by
`__init__`. -/
structure HomeActivity where
  window : Option Window
  service : Option ServiceHandle
  activity_id : String
  activity_info : Option ActivityInfo
  launch_time : Nat
  launching : Bool
deriving DecidableEq, Repr

/-- The observable side effects of a call: remote object lookups attempted
(by bus name), `NameOwnerChanged` signal receivers added, asynchronous
`SetActive` remote calls issued (bus name, boolean argument), and log
lines emitted. -/
structure Effects where
  lookups : List String
  subscriptions : Nat
  remoteCalls : List (String × Bool)
  logs : List String
deriving DecidableEq, Repr

/-- No side effects. -/
def Effects.nil : Effects := ⟨[], 0, [], []⟩

/-- Side effects of two consecutive calls. -/
def Effects.append (e1 e2 : Effects) : Effects :=
  ⟨e1.lookups ++ e2.lookups, e1.subscriptions + e2.subscriptions,
   e1.remoteCalls ++ e2.remoteCalls, e1.logs ++ e2.logs⟩

namespace HomeActivity

/-- `set_window`: raises `ValueError` on a falsy (absent) window, otherwise
replaces the stored window reference. -/
def set_window (a : HomeActivity) (window : Option Window) :
    Except String HomeActivity :=
  match window with
  | none => Except.error "ValueError: window must be valid"
  | some w => Except.ok { a with window := some w }

/-- `get_service`: the current remote service handle, or `None`. -/
def get_service (a : HomeActivity) : Option ServiceHandle :=
  a.service

/-- `get_title`: the window's reported name, or the empty string when no
window is attached. -/
def get_title (a : HomeActivity) : String :=
  match a.window with
  | some w => w.name
  | none => ""

/-- `get_activity_id`. -/
def get_activity_id (a : HomeActivity) : String :=
  a.activity_id

/-- `get_xid`: dereferences `self._window`; raises `AttributeError` when no
window is attached. -/
def get_xid (a : HomeActivity) : Except String Nat :=
  match a.window with
  | none => Except.error "AttributeError: NoneType has no attribute get_xid"
  | some w => Except.ok w.xid

/-- `get_window`. -/
def get_window (a : HomeActivity) : Option Window :=
  a.window

/-- `get_type`: `None` when no window is attached, else the bundle id the
window manager resolves for the window. -/
def get_type (wm : Wm) (a : HomeActivity) : Option String :=
  match a.window with
  | none => none
  | some w => some (wm.get_bundle_id w)

/-- `is_journal`: compares `get_type()` against the fixed journal bundle id
(Python compares `None == str` as false). -/
def is_journal (wm : Wm) (a : HomeActivity) : Bool :=
  get_type wm a == some "org.laptop.JournalActivity"

/-- `get_icon_path`: the built-in journal icon under `config.data_path` for
the journal activity, else the type metadata's icon, else `None`. -/
def get_icon_path (cfg : Config) (wm : Wm) (a : HomeActivity) :
    Option String :=
  if is_journal wm a then
    some (cfg.data_path ++ "/" ++ "icons/activity-journal.svg")
  else
    match a.activity_info with
    | some info => some info.icon
    | none => none

/-- The `for act in pservice.get_activities(): if id == act.props.id: break`
loop of `get_icon_color`: first list entry whose id matches. -/
def find_matching_activity (aid : String) :
    List PsActivity → Option PsActivity
  | [] => none
  | act :: rest =>
    if aid == act.id then some act else find_matching_activity aid rest

/-- `get_icon_color`: the matching presence-service entry's color when one
exists, else the local profile color. -/
def get_icon_color (ps : PresenceService) (prof : Profile)
    (a : HomeActivity) : XoColor :=
  match find_matching_activity a.activity_id ps.activities with
  | some act => ⟨act.color⟩
  | none => prof.color

/-- `get_launch_time`: the timestamp captured at construction. -/
def get_launch_time (a : HomeActivity) : Nat :=
  a.launch_time

/-- `get_pid`: dereferences `self._window`; raises when no window. -/
def get_pid (a : HomeActivity) : Except String Nat :=
  match a.window with
  | none => Except.error "AttributeError: NoneType has no attribute get_pid"
  | some w => Except.ok w.pid

/-- `equals`: id comparison first (only when both ids are truthy); else the
xid comparison, which dereferences `self._window` (raising when absent) and
treats xid `0` as falsy, with Python's short-circuit `and`. -/
def equals (a b : HomeActivity) : Except String Bool :=
  if a.activity_id ≠ "" && get_activity_id b ≠ "" then
    Except.ok (a.activity_id == get_activity_id b)
  else
    match a.window with
    | none =>
      Except.error "AttributeError: NoneType has no attribute get_xid"
    | some w =>
      if w.xid ≠ 0 then
        match b.window with
        | none =>
          Except.error "AttributeError: NoneType has no attribute get_xid"
        | some w2 =>
          if w2.xid ≠ 0 then Except.ok (w.xid == w2.xid)
          else Except.ok false
      else Except.ok false

/-- `do_set_property`: writes the `launching` field when that property is
named. -/
def do_set_property (a : HomeActivity) (pspecName : String) (value : Bool) :
    HomeActivity :=
  if pspecName == "launching" then { a with launching := value } else a

/-- `do_get_property`. -/
def do_get_property (a : HomeActivity) (pspecName : String) : Option Bool :=
  if pspecName == "launching" then some a.launching else none

/-- `_get_service_name`: the derived well-known name, absent for an empty
activity id. -/
def get_service_name (a : HomeActivity) : Option String :=
  if a.activity_id ≠ "" then some (SERVICE_NAME ++ a.activity_id)
  else none

/-- `_retrieve_service`: returns immediately on an empty activity id;
otherwise attempts the remote object lookup, binding the handle on success
and setting the service to `None` on `DBusException`. -/
def retrieve_service (bus : Bus) (a : HomeActivity) :
    HomeActivity × Effects :=
  if a.activity_id = "" then (a, Effects.nil)
  else
    let nm := SERVICE_NAME ++ a.activity_id
    let eff : Effects := ⟨[nm], 0, [], []⟩
    if bus.publishes nm then
      let h : ServiceHandle :=
        ⟨nm, SERVICE_PATH ++ "/" ++ a.activity_id, SERVICE_INTERFACE⟩
      ({ a with service := some h }, eff)
    else
      ({ a with service := none }, eff)

/-- `set_active`: when a service handle is present issues the asynchronous
`SetActive` remote call (fire-and-forget); otherwise does nothing.  Total:
never raises. -/
def set_active (a : HomeActivity) (state : Bool) : Effects :=
  match a.service with
  | some s => ⟨[], 0, [(s.busName, state)], []⟩
  | none => Effects.nil

/-- `_set_active_success`: no-op. -/
def set_active_success (a : HomeActivity) : HomeActivity × Effects :=
  (a, Effects.nil)

/-- `_set_active_error`: logs the failure; no state change, no retry. -/
def set_active_error (a : HomeActivity) (err : String) :
    HomeActivity × Effects :=
  (a, ⟨[], 0, [], ["set_active() failed: " ++ err]⟩)

/-- `_name_owner_changed_cb`: on a notification whose name equals the
derived well-known name (`name == None` is false in Python), re-resolves
the service and calls `set_active(True)`. -/
def name_owner_changed_cb (bus : Bus) (a : HomeActivity)
    (nm _oldOwner _newOwner : String) : HomeActivity × Effects :=
  if get_service_name a = some nm then
    let r := retrieve_service bus a
    (r.1, r.2.append (set_active r.1 true))
  else
    (a, Effects.nil)

/-- `__init__`: zero-initialises the fields, captures the launch time,
attaches the window when one is given (via `set_window`, which cannot fail
on a present window), attempts service resolution, and subscribes to
`NameOwnerChanged` whenever no service was resolved. -/
def init (bus : Bus) (activity_info : Option ActivityInfo)
    (activity_id : String) (window : Option Window) (now : Nat) :
    HomeActivity × Effects :=
  let a0 : HomeActivity :=
    { window := none, service := none, activity_id := activity_id,
      activity_info := activity_info, launch_time := now,
      launching := false }
  let a1 := match window with
    | some w =>
      match set_window a0 (some w) with
      | Except.ok a => a
      | Except.error _ => a0
    | none => a0
  let r := retrieve_service bus a1
  if r.1.service.isNone then
    (r.1, { r.2 with subscriptions := r.2.subscriptions + 1 })
  else
    r

/-- Delivering a sequence of `NameOwnerChanged` notifications to a record:
each step carries the bus state at delivery time and the signal's three
string arguments. -/
def run_notifications (steps : List (Bus × String × String × String))
    (a : HomeActivity) : HomeActivity × Effects :=
  match steps with
  | [] => (a, Effects.nil)
  | (bus, nm, o, nw) :: rest =>
    let r1 := name_owner_changed_cb bus a nm o nw
    let r2 := run_notifications rest r1.1
    (r2.1, r1.2.append r2.2)

end HomeActivity

open HomeActivity

/-- Modelled from the spec: claim C1's equality rule, in its own words —
equality holds if both records carry the same non-empty `activityId`, OR,
when the ids are absent or differ, if both windows exist and carry the same
window identifier. -/
def equalsClaimed (a b : HomeActivity) : Prop :=
  (a.activity_id ≠ "" ∧ a.activity_id = b.activity_id) ∨
  ((a.activity_id = "" ∨ b.activity_id = "" ∨
      a.activity_id ≠ b.activity_id) ∧
    ∃ w1 w2 : Window, a.window = some w1 ∧ b.window = some w2 ∧
      w1.xid = w2.xid)

/-- Fixture: a record with a non-empty id, no window, no service. -/
def recNoService : HomeActivity :=
  ⟨none, none, "abc123", none, 0, false⟩

/-- Fixture: a record with an empty id, no window, no service. -/
def recEmptyId : HomeActivity :=
  ⟨none, none, "", none, 0, false⟩

/-- Fixture: a record with a window attached. -/
def recWithWindow : HomeActivity :=
  ⟨some ⟨7, "win", 42⟩, none, "abc123", none, 0, false⟩

/-- Fixture: id `"aaa"`, window with xid 7. -/
def recA : HomeActivity :=
  ⟨some ⟨7, "wa", 1⟩, none, "aaa", none, 0, false⟩

/-- Fixture: id `"bbb"`, window with xid 7. -/
def recB : HomeActivity :=
  ⟨some ⟨7, "wb", 2⟩, none, "bbb", none, 0, false⟩

/-- Fixture: a record for activity id `"abc"`, unresolved service, whose
`launching` property was set to true through the property system. -/
def recLaunching : HomeActivity :=
  do_set_property ⟨none, none, "abc", none, 0, false⟩ "launching" true

/-- Fixture: a bus publishing exactly the well-known name derived from
activity id `"abc"`. -/
def busAbc : Bus :=
  ⟨fun nm => nm == "org.laptop.Activityabc"⟩

/-- Fixture: a bus publishing no name at all. -/
def busNone : Bus :=
  ⟨fun _ => false⟩

/-- Fixture: a window manager resolving every window to a non-journal
bundle id. -/
def wmOther : Wm :=
  ⟨fun _ => "org.example.Other"⟩

/-- Fixture: a window manager resolving every window to the journal bundle
id. -/
def wmJournal : Wm :=
  ⟨fun _ => "org.laptop.JournalActivity"⟩

/-- Fixture: a config with a concrete data path. -/
def cfgDemo : Config :=
  ⟨"/usr/share/sugar"⟩

/-- Fixture: concrete activity type metadata. -/
def infoDemo : ActivityInfo :=
  ⟨"/activities/demo/icon.svg"⟩

/-- Helper: when no list entry matches, the first-match loop returns
`none`. -/
theorem find_matching_activity_eq_none (aid : String)
    (l : List PsActivity) (h : ∀ act ∈ l, act.id ≠ aid) :
    find_matching_activity aid l = none := by
  induction l with
  | nil => rfl
  | cons act rest ih =>
    have hact : act.id ≠ aid := h act (List.mem_cons_self act rest)
    have : (aid == act.id) = false := by
      simp [beq_eq_false_iff_ne]
      exact fun e => hact e.symm
    simp [find_matching_activity, this]
    exact ih fun x hx => h x (List.mem_cons_of_mem act hx)

/-- Helper: a first-match result is a member of the list and matches the
id. -/
theorem find_matching_activity_eq_some (aid : String)
    (l : List PsActivity) (act : PsActivity)
    (h : find_matching_activity aid l = some act) :
    act ∈ l ∧ act.id = aid := by
  induction l with
  | nil => simp [find_matching_activity] at h
  | cons hd rest ih =>
    by_cases hb : aid == hd.id
    · simp [find_matching_activity, hb] at h
      subst h
      exact ⟨List.mem_cons_self hd rest, (beq_iff_eq.mp hb).symm⟩
    · simp [find_matching_activity, hb] at h
      obtain ⟨hm, he⟩ := ih h
      exact ⟨List.mem_cons_of_mem hd hm, he⟩

/-- Helper: when some list entry matches, the first-match loop returns an
entry. -/
theorem find_matching_activity_isSome (aid : String)
    (l : List PsActivity) (h : ∃ act ∈ l, act.id = aid) :
    ∃ act, find_matching_activity aid l = some act := by
  induction l with
  | nil => simp at h
  | cons hd rest ih =>
    by_cases hb : aid == hd.id
    · exact ⟨hd, by simp [find_matching_activity, hb]⟩
    · obtain ⟨act, hm, he⟩ := h
      rcases List.mem_cons.mp hm with rfl | hm2
      · exact absurd (by simp [he] : (aid == act.id) = true) hb
      · obtain ⟨a2, h2⟩ := ih ⟨act, hm2, he⟩
        exact ⟨a2, by simpa [find_matching_activity, hb] using h2⟩

/-- Helper: the fields of a freshly constructed record. -/
theorem init_fields (bus : Bus) (info : Option ActivityInfo)
    (aid : String) (window : Option Window) (now : Nat) :
    ((init bus info aid window now).1).window = window ∧
    ((init bus info aid window now).1).activity_id = aid ∧
    ((init bus info aid window now).1).activity_info = info ∧
    ((init bus info aid window now).1).launch_time = now ∧
    ((init bus info aid window now).1).launching = false := by
  cases window <;>
    by_cases h : aid = "" <;>
      by_cases hb : bus.publishes (SERVICE_NAME ++ aid) = true <;>
        simp [HomeActivity.init, HomeActivity.retrieve_service,
          HomeActivity.set_window, h, hb, Effects.nil]

/-- C4: `set_window` with a null/absent window fails with the
invalid-argument error (`ValueError`), leaving no successor state; with any
valid window it replaces only the stored window reference, all other fields
unchanged, and performs no other side effect. -/
theorem set_window_spec (a : HomeActivity) :
    set_window a none =
      Except.error "ValueError: window must be valid" ∧
    ∀ w : Window, set_window a (some w) =
      Except.ok { a with window := some w } :=
  ⟨rfl, fun _ => rfl⟩

/-- C5: `set_active` with no service handle is a complete no-op (no remote
call, no exception — the function is total by construction); with a service
handle it issues exactly the one asynchronous `SetActive` call; the error
branch of that call only logs, changing no state and issuing no retry. -/
theorem set_active_spec (a : HomeActivity) (state : Bool) :
    (a.service = none → set_active a state = Effects.nil) ∧
    (∀ h : ServiceHandle, a.service = some h →
      set_active a state = ⟨[], 0, [(h.busName, state)], []⟩) ∧
    (∀ err : String,
      (set_active_error a err).1 = a ∧
      (set_active_error a err).2.remoteCalls = [] ∧
      (set_active_error a err).2.lookups = [] ∧
      (set_active_error a err).2.logs =
        ["set_active() failed: " ++ err]) := by
  refine ⟨fun h => ?_, fun s hs => ?_, fun err => ⟨rfl, rfl, rfl, rfl⟩⟩
  · simp [HomeActivity.set_active, h, Effects.nil]
  · simp [HomeActivity.set_active, hs]

/-- Witness for C5: a concrete serviceless record where `setActive`
performs nothing. -/
theorem set_active_spec_witness :
    set_active recNoService true = Effects.nil :=
  (set_active_spec recNoService true).1 rfl

/-- C7: `is_journal` is true exactly when the resolved bundle id is the
fixed journal bundle id; it requires an attached window, and `get_type` is
absent without one. -/
theorem is_journal_spec (wm : Wm) (a : HomeActivity) :
    (is_journal wm a = true ↔
      get_type wm a = some "org.laptop.JournalActivity") ∧
    (is_journal wm a = true → a.window ≠ none) ∧
    (a.window = none → get_type wm a = none) := by
  refine ⟨?_, fun hj => ?_, fun hw => ?_⟩
  · simp [HomeActivity.is_journal]
  · cases hwin : a.window with
    | none => simp [HomeActivity.is_journal, HomeActivity.get_type,
        hwin] at hj
    | some w => simp [hwin]
  · simp [HomeActivity.get_type, hw]

/-- Witness for C7: journal detection fires on a concrete record whose
window resolves to the journal bundle id. -/
theorem is_journal_spec_witness :
    is_journal wmJournal recWithWindow = true :=
  ((is_journal_spec wmJournal recWithWindow).1).mpr rfl

/-- C9: when the id comparison does not decide equality (at least one id is
empty) and the receiver has no window, `equals` dereferences the absent
window and raises rather than returning false. -/
theorem equals_no_window_raises (a b : HomeActivity)
    (hid : a.activity_id = "" ∨ b.activity_id = "")
    (hw : a.window = none) :
    equals a b =
      Except.error "AttributeError: NoneType has no attribute get_xid" := by
  rcases hid with h | h <;>
    simp [HomeActivity.equals, HomeActivity.get_activity_id, h, hw]

/-- Witness for C9: a concrete empty-id, windowless record raises in
`equals`. -/
theorem equals_no_window_raises_witness :
    equals recEmptyId recNoService =
      Except.error "AttributeError: NoneType has no attribute get_xid" :=
  equals_no_window_raises recEmptyId recNoService (Or.inl rfl) rfl

/-- C6: `get_icon_color` returns a matching presence-service entry's
assigned color when one exists in the service's activity list, and the
local profile color otherwise — for lists of any length. -/
theorem get_icon_color_spec (ps : PresenceService) (prof : Profile)
    (a : HomeActivity) :
    ((∀ act ∈ ps.activities, act.id ≠ a.activity_id) →
      get_icon_color ps prof a = prof.color) ∧
    ((∃ act ∈ ps.activities, act.id = a.activity_id) →
      ∃ act ∈ ps.activities, act.id = a.activity_id ∧
        get_icon_color ps prof a = ⟨act.color⟩) := by
  constructor
  · intro h
    have hn := find_matching_activity_eq_none a.activity_id
      ps.activities h
    simp [HomeActivity.get_icon_color, hn]
  · intro h
    obtain ⟨act, hs⟩ := find_matching_activity_isSome a.activity_id
      ps.activities h
    obtain ⟨hm, he⟩ := find_matching_activity_eq_some a.activity_id
      ps.activities act hs
    exact ⟨act, hm, he, by simp [HomeActivity.get_icon_color, hs]⟩

/-- Witness for C6: with a one-entry list that does not match, the profile
fallback color is returned. -/
theorem get_icon_color_spec_witness :
    get_icon_color ⟨[⟨"other", "red"⟩]⟩ ⟨⟨"profcolor"⟩⟩ recNoService =
      ⟨"profcolor"⟩ :=
  (get_icon_color_spec ⟨[⟨"other", "red"⟩]⟩ ⟨⟨"profcolor"⟩⟩
    recNoService).1 (by decide)

/-- C8: constructing with a non-empty id and no window (type metadata
present, resolved bundle non-journal because no window is attached) yields
a record whose title is empty, whose icon path is the type metadata's icon,
and whose launch time is the construction-time timestamp. -/
theorem construct_no_window_spec (bus : Bus) (cfg : Config) (wm : Wm)
    (info : ActivityInfo) (aid : String) (now : Nat) (_hid : aid ≠ "") :
    get_title (init bus (some info) aid none now).1 = "" ∧
    get_icon_path cfg wm (init bus (some info) aid none now).1 =
      some info.icon ∧
    get_launch_time (init bus (some info) aid none now).1 = now := by
  obtain ⟨hw, -, hi, ht, -⟩ :=
    init_fields bus (some info) aid none now
  refine ⟨?_, ?_, ?_⟩
  · simp [HomeActivity.get_title, hw]
  · simp [HomeActivity.get_icon_path, HomeActivity.is_journal,
      HomeActivity.get_type, hw, hi]
  · simp [HomeActivity.get_launch_time, ht]

/-- Witness for C8: the concrete construction of the spec's example,
`activityId = "abc123"` and no window. -/
theorem construct_no_window_spec_witness :
    get_title (init busNone (some infoDemo) "abc123" none 5).1 = "" ∧
    get_icon_path cfgDemo wmOther
      (init busNone (some infoDemo) "abc123" none 5).1 =
      some infoDemo.icon ∧
    get_launch_time (init busNone (some infoDemo) "abc123" none 5).1 = 5 :=
  construct_no_window_spec busNone cfgDemo wmOther infoDemo "abc123" 5
    (by decide)

/-- Helper: a record with an empty activity id ignores every ownership
notification — state unchanged, no lookups, no remote calls. -/
theorem run_notifications_empty_id (a : HomeActivity)
    (hid : a.activity_id = "")
    (steps : List (Bus × String × String × String)) :
    run_notifications steps a = (a, Effects.nil) := by
  induction steps with
  | nil => rfl
  | cons s rest ih =>
    obtain ⟨bus, nm, o, nw⟩ := s
    have hn : get_service_name a = none := by
      simp [HomeActivity.get_service_name, hid]
    simp [HomeActivity.run_notifications,
      HomeActivity.name_owner_changed_cb, hn, ih, Effects.append,
      Effects.nil]

/-- C10: a record constructed with an empty activity id has no derived
well-known name and no service, and every sequence of ownership-change
notifications leaves it untouched: no re-resolution, no `SetActive` call,
the record never leaves the no-service state. -/
theorem empty_id_never_leaves_no_service (bus0 : Bus)
    (info : Option ActivityInfo) (w : Option Window) (now : Nat)
    (steps : List (Bus × String × String × String)) :
    ((init bus0 info "" w now).1).service = none ∧
    get_service_name (init bus0 info "" w now).1 = none ∧
    run_notifications steps (init bus0 info "" w now).1 =
      ((init bus0 info "" w now).1, Effects.nil) := by
  have hid : ((init bus0 info "" w now).1).activity_id = "" :=
    (init_fields bus0 info "" w now).2.1
  refine ⟨?_, ?_, run_notifications_empty_id _ hid steps⟩
  · cases w <;>
      simp [HomeActivity.init, HomeActivity.retrieve_service,
        HomeActivity.set_window, Effects.nil]
  · simp [HomeActivity.get_service_name, hid]

/-- Counterexample for C2: constructing with an empty id and no window on a
bus publishing nothing performs no remote lookup, yet does add a
`NameOwnerChanged` subscription — the claim that it never subscribes is
false. -/
theorem init_empty_id_counterexample :
    ((init busNone none "" none 0).2).lookups = [] ∧
    ¬ ((init busNone none "" none 0).2).subscriptions = 0 := by
  constructor <;> decide

/-- C2 (amended): constructing with an empty id and no window never
attempts a remote lookup, but always adds exactly one ownership-change
subscription, because the constructor subscribes whenever no service was
resolved. -/
theorem init_empty_id_amended (bus : Bus) (info : Option ActivityInfo)
    (now : Nat) :
    ((init bus info "" none now).2).lookups = [] ∧
    ((init bus info "" none now).2).subscriptions = 1 ∧
    ((init bus info "" none now).1).service = none := by
  simp [HomeActivity.init, HomeActivity.retrieve_service, Effects.nil]

/-- Counterexample for C1: two records with differing non-empty ids whose
windows both exist and carry the same window identifier — the claim's rule
makes them equal, but `equals` returns false (the id comparison decides and
the window fallback is never consulted). -/
theorem equals_claim_counterexample :
    equalsClaimed recA recB ∧ equals recA recB = Except.ok false := by
  constructor
  · exact Or.inr ⟨Or.inr (Or.inr (by decide)),
      ⟨7, "wa", 1⟩, ⟨7, "wb", 2⟩, rfl, rfl, rfl⟩
  · rfl

/-- C1 (amended): when both ids are non-empty, `equals` is decided by the
id comparison alone, regardless of window state — differing ids are never
equal even with matching windows; the window fallback applies only when at
least one id is empty, and then (both windows present) equality holds
exactly when the two window identifiers agree and are nonzero. -/
theorem equals_amended (a b : HomeActivity) :
    (a.activity_id ≠ "" → b.activity_id ≠ "" →
      equals a b = Except.ok (a.activity_id == b.activity_id)) ∧
    (∀ w1 w2 : Window, a.window = some w1 → b.window = some w2 →
      (equals a b = Except.ok true ↔
        ((a.activity_id ≠ "" ∧ a.activity_id = b.activity_id) ∨
         ((a.activity_id = "" ∨ b.activity_id = "") ∧
          w1.xid = w2.xid ∧ w1.xid ≠ 0)))) := by
  constructor
  · intro ha hb
    simp [HomeActivity.equals, HomeActivity.get_activity_id, ha, hb]
  · intro w1 w2 h1 h2
    by_cases ha : a.activity_id = ""
    · simp only [HomeActivity.equals, HomeActivity.get_activity_id,
        ha, h1, h2]
      by_cases hx1 : w1.xid = 0 <;>
        by_cases hx2 : w2.xid = 0 <;>
          simp [hx1, hx2]
    · by_cases hb : b.activity_id = ""
      · simp only [HomeActivity.equals, HomeActivity.get_activity_id,
          ha, hb, h1, h2]
        by_cases hx1 : w1.xid = 0 <;>
          by_cases hx2 : w2.xid = 0 <;>
            simp [hx1, hx2, ha]
      · simp [HomeActivity.equals, HomeActivity.get_activity_id, ha, hb]

/-- Witness for C1 (amended): two concrete records with the same non-empty
id compare equal through the id branch. -/
theorem equals_amended_witness :
    equals recNoService recNoService = Except.ok true := by
  have h := (equals_amended recNoService recNoService).1
    (by decide) (by decide)
  simpa using h

/-- Counterexample for C3: an unresolved record for id `"abc"` whose
`launching` property is true receives the matching ownership notification
on a bus now publishing its name; the callback re-resolves the service,
yet the `launching` flag stays true — the claim that it is cleared is
false. -/
theorem name_owner_cb_counterexample :
    ((name_owner_changed_cb busAbc recLaunching
        "org.laptop.Activityabc" "" ":1.5").1).launching = true ∧
    ((name_owner_changed_cb busAbc recLaunching
        "org.laptop.Activityabc" "" ":1.5").1).service.isSome = true := by
  constructor <;> decide

/-- C3 (amended): on a notification matching the derived well-known name,
with the bus now publishing that name, the callback re-resolves the service
handle (one lookup, handle bound to the derived name, path and interface)
and propagates active=true via one `SetActive` remote call; the `launching`
flag is not modified by the callback. -/
theorem name_owner_cb_amended (bus : Bus) (a : HomeActivity)
    (o n : String) (hid : a.activity_id ≠ "")
    (hpub : bus.publishes (SERVICE_NAME ++ a.activity_id) = true) :
    ((name_owner_changed_cb bus a (SERVICE_NAME ++ a.activity_id)
        o n).1).service =
      some ⟨SERVICE_NAME ++ a.activity_id,
            SERVICE_PATH ++ "/" ++ a.activity_id, SERVICE_INTERFACE⟩ ∧
    ((name_owner_changed_cb bus a (SERVICE_NAME ++ a.activity_id)
        o n).2).lookups = [SERVICE_NAME ++ a.activity_id] ∧
    ((name_owner_changed_cb bus a (SERVICE_NAME ++ a.activity_id)
        o n).2).remoteCalls = [(SERVICE_NAME ++ a.activity_id, true)] ∧
    ((name_owner_changed_cb bus a (SERVICE_NAME ++ a.activity_id)
        o n).1).launching = a.launching := by
  have hn : get_service_name a = some (SERVICE_NAME ++ a.activity_id) := by
    simp [HomeActivity.get_service_name, hid]
  simp [HomeActivity.name_owner_changed_cb, hn,
    HomeActivity.retrieve_service, HomeActivity.set_active, hid, hpub,
    Effects.append, Effects.nil]

/-- Witness for C3 (amended): the concrete `"abc"` scenario — the callback
binds the service and issues the one `SetActive(true)` call. -/
theorem name_owner_cb_amended_witness :
    ((name_owner_changed_cb busAbc recLaunching
        (SERVICE_NAME ++ "abc") "" ":1.5").2).remoteCalls =
      [(SERVICE_NAME ++ "abc", true)] :=
  (name_owner_cb_amended busAbc recLaunching "" ":1.5"
    (by decide) (by decide)).2.2.1

end Sugar
